import Mathlib

/-!
Verification of the toga handler-dispatch normalization layer and the
winforms font backend, against the repository's specification.

The handler module (`toga/handlers.py`) is exercised by
`src/core/tests/test_handlers.py` but its own code is not in the source
tree, so the handler data model below is modelled from the spec
(sections 4.1-4.6 and 7-8).  The winforms font code
(`src/winforms/src/toga_winforms/fonts.py`) is embedded directly.
-/

set_option autoImplicit false

/-- A Python-like runtime value, sufficient for receivers, arguments and
handler return values in the tests. -/
inductive Val where
  | none
  | int (n : Int)
  | str (s : String)
  | obj (id : Nat)
deriving DecidableEq

/-- Outcome of running a handler body (or an async body): a normal return
carrying the return value, or a raised exception carrying its message. -/
inductive Outcome where
  | ok (r : Val)
  | exn (msg : String)
deriving DecidableEq

/-- Positional arguments of an invocation. -/
abbrev Args := List Val

/-- Keyword arguments of an invocation. -/
abbrev Kwargs := List (String × Val)

/-- Modelled from the spec (section 4.2): the body of a plain synchronous
handler, as the semantic function from (receiver, args, kwargs) to the
body's outcome. -/
abbrev SyncBody := Val → Args → Kwargs → Outcome

/-- Modelled from the spec (glossary, section 4.2): a cleanup callable,
given (receiver, returnValue); result is the message of the exception it
raises, or nothing when it completes normally. -/
abbrev Cleanup := Val → Val → Option String

/-- Modelled from the spec (section 4.3): what one generator step yields:
either a numeric delay or a plain/None yield. -/
inductive GenYield where
  | delay (d : ℚ)
  | pause
deriving DecidableEq

/-- One segment of a generator body: the markers the segment records,
followed by the yield that suspends it. -/
structure GenSeg where
  marks : List String
  y : GenYield
deriving DecidableEq

/-- Modelled from the spec (section 4.3): the script of one run of a
generator handler: the yielded segments, then the final segment's markers
and the generator's final outcome (return value or raised exception). -/
structure GenScript where
  segs : List GenSeg
  finalMarks : List String
  outcome : Outcome
deriving DecidableEq

/-- Modelled from the spec (section 4.3): the body of a generator handler:
invoking it with (receiver, args, kwargs) produces the run's script. -/
abbrev GenBody := Val → Args → Kwargs → GenScript

/-- Modelled from the spec (section 4.4): the body of an asynchronous
handler; the awaits inside the body are abstracted away, leaving the
eventual outcome of the task. -/
abbrev AsyncBody := Val → Args → Kwargs → Outcome

/-- Modelled from the spec (section 4.1, glossary): the marker wrapper for
a native callback handle, carrying the value to pass through to the host. -/
structure NativeHandler where
  native : Val
deriving DecidableEq

/-- Modelled from the spec (section 3): the polymorphic raw handler value:
absent, native callback, synchronous function, generator function, or
asynchronous function. -/
inductive RawHandler where
  | none
  | native (h : NativeHandler)
  | sync (body : SyncBody)
  | gen (body : GenBody)
  | async (body : AsyncBody)

/-- The five invocation strategies of the dispatch classifier. -/
inductive Strategy where
  | none
  | native
  | async
  | cooperative
  | sync
deriving DecidableEq

/-- Modelled from the spec (section 4.1): the dispatch classifier, with the
rules applied in the spec's order (absent, native, async, generator,
otherwise sync). -/
def classify : RawHandler → Strategy
  | .none => .none
  | .native _ => .native
  | .async _ => .async
  | .gen _ => .cooperative
  | .sync _ => .sync

/-- An observable event of one dispatch execution: the underlying handler
body starting with its received arguments, a marker recorded by a handler
body, a cleanup invocation, or an emitted log line. -/
inductive Event where
  | handlerCall (receiver : Val) (args : Args) (kwargs : Kwargs)
  | mark (s : String)
  | cleanupCall (receiver : Val) (r : Val)
  | log (line : String)
deriving DecidableEq

/-- The traceback rendering the logger appends after each error line. -/
def tracebackHeader : String := "\nTraceback (most recent call last):\n"

/-- Log line for an exception in a sync handler body. -/
def handlerErrorLog (msg : String) : String :=
  "Error in handler: " ++ msg ++ tracebackHeader

/-- Log line for an exception in a sync handler's cleanup. -/
def handlerCleanupErrorLog (msg : String) : String :=
  "Error in handler cleanup: " ++ msg ++ tracebackHeader

/-- Log line for an exception in a generator handler step. -/
def longRunningErrorLog (msg : String) : String :=
  "Error in long running handler: " ++ msg ++ tracebackHeader

/-- Log line for an exception in a generator handler's cleanup. -/
def longRunningCleanupErrorLog (msg : String) : String :=
  "Error in long running handler cleanup: " ++ msg ++ tracebackHeader

/-- Log line for an exception in an async handler body. -/
def asyncErrorLog (msg : String) : String :=
  "Error in async handler: " ++ msg ++ tracebackHeader

/-- Log line for an exception in an async handler's cleanup. -/
def asyncCleanupErrorLog (msg : String) : String :=
  "Error in async handler cleanup: " ++ msg ++ tracebackHeader

/-- Shared tail of every invoker: after a normal completion with return
value `r`, run the cleanup (when provided), isolating its exceptions and
logging them with the strategy's cleanup log line. -/
def cleanupEvents (cleanupLog : String → String) (receiver : Val) (r : Val) :
    Option Cleanup → List Event
  | Option.none => []
  | Option.some cl =>
    match cl receiver r with
    | Option.none => [.cleanupCall receiver r]
    | Option.some cmsg => [.cleanupCall receiver r, .log (cleanupLog cmsg)]

/-- Modelled from the spec (section 4.2): the synchronous invoker.  Calls
the handler with (receiver, args, kwargs); on an exception logs the
`HandlerError` line and skips cleanup; on success runs cleanup with its own
isolated error handling.  The second component is the dispatch call's own
result: `.ok ()` means it returned normally to the caller. -/
def invokeSync (receiver : Val) (body : SyncBody) (cleanup : Option Cleanup)
    (args : Args) (kwargs : Kwargs) : List Event × Except String Unit :=
  let call := Event.handlerCall receiver args kwargs
  match body receiver args kwargs with
  | .exn msg => ([call, .log (handlerErrorLog msg)], .ok ())
  | .ok r => (call :: cleanupEvents handlerCleanupErrorLog receiver r cleanup, .ok ())

/-- Modelled from the spec (section 4.3): the events of one full
cooperative run: the markers of every segment in order, then either the
`LongRunningHandlerError` log line (exceptional end, no cleanup) or the
cleanup handling after the generator's normal completion. -/
def runGenTask (receiver : Val) (g : GenScript) (cleanup : Option Cleanup) :
    List Event :=
  let marks := ((g.segs.map GenSeg.marks).flatten ++ g.finalMarks).map Event.mark
  match g.outcome with
  | .exn msg => marks ++ [.log (longRunningErrorLog msg)]
  | .ok r => marks ++ cleanupEvents longRunningCleanupErrorLog receiver r cleanup

/-- Modelled from the spec (section 4.3): the cooperative invoker.  It
starts the generator with (receiver, args, kwargs) and drives the run on
the host's schedule; the dispatch call itself returns normally at once.
The event list is the full execution's trace. -/
def invokeGen (receiver : Val) (body : GenBody) (cleanup : Option Cleanup)
    (args : Args) (kwargs : Kwargs) : List Event × Except String Unit :=
  (Event.handlerCall receiver args kwargs ::
    runGenTask receiver (body receiver args kwargs) cleanup, .ok ())

/-- Modelled from the spec (section 4.4): the events of the spawned async
task: the body runs with (receiver, args, kwargs); an exception is logged
with the `AsyncHandlerError` line and skips cleanup; a normal completion
runs cleanup with its own isolated error handling. -/
def runAsyncTask (receiver : Val) (body : AsyncBody) (cleanup : Option Cleanup)
    (args : Args) (kwargs : Kwargs) : List Event :=
  let call := Event.handlerCall receiver args kwargs
  match body receiver args kwargs with
  | .exn msg => [call, .log (asyncErrorLog msg)]
  | .ok r => call :: cleanupEvents asyncCleanupErrorLog receiver r cleanup

/-- Modelled from the spec (section 4.4): the async task launcher: the task
is fire-and-forget, so the dispatch call returns normally at once. -/
def invokeAsync (receiver : Val) (body : AsyncBody) (cleanup : Option Cleanup)
    (args : Args) (kwargs : Kwargs) : List Event × Except String Unit :=
  (runAsyncTask receiver body cleanup args kwargs, .ok ())

/-- Modelled from the spec (sections 3, 4.5): the wrapping callable the
facade returns for non-native handlers: the receiver bound at wrap time,
the original raw handler (exposed for introspection), and the optional
cleanup. -/
structure WrappedCallable where
  receiver : Val
  raw : RawHandler
  cleanup : Option Cleanup

/-- Modelled from the spec (section 4.5): the facade's return value: a
wrapping callable, or — for the native strategy only — the native callback
value itself. -/
inductive WrapResult where
  | callable (w : WrappedCallable)
  | nativeValue (cb : Val)

/-- Modelled from the spec (section 4.5): the handler wrapper facade
`wrapped_handler(interface, handler, cleanup)`: for a native handler the
native callback object itself is returned; every other raw handler value is
bound into a wrapping callable. -/
def wrapped_handler (receiver : Val) (handler : RawHandler)
    (cleanup : Option Cleanup) : WrapResult :=
  match handler with
  | .native h => .nativeValue h.native
  | h => .callable ⟨receiver, h, cleanup⟩

/-- Modelled from the spec (sections 4.2-4.5): invoking the wrapping
callable with (widget, args, kwargs).  The first positional argument (the
widget the host passes) is discarded; the strategy bound at wrap time runs
with the receiver instead. -/
def WrappedCallable.call (w : WrappedCallable) (_widget : Val) (args : Args)
    (kwargs : Kwargs) : List Event × Except String Unit :=
  match w.raw with
  | .none => ([], .ok ())
  | .native _ => ([], .ok ())
  | .sync b => invokeSync w.receiver b w.cleanup args kwargs
  | .gen b => invokeGen w.receiver b w.cleanup args kwargs
  | .async b => invokeAsync w.receiver b w.cleanup args kwargs

/-- Wrap a raw handler and invoke the result once: the composition the
tests exercise.  A native wrap result is not invoked through this layer, so
it contributes no events. -/
def invokeWrapped (receiver : Val) (handler : RawHandler)
    (cleanup : Option Cleanup) (widget : Val) (args : Args) (kwargs : Kwargs) :
    List Event × Except String Unit :=
  match wrapped_handler receiver handler cleanup with
  | .callable w => w.call widget args kwargs
  | .nativeValue _ => ([], .ok ())

/-- Is this event a cleanup invocation? -/
def Event.isCleanup : Event → Bool
  | .cleanupCall _ _ => true
  | _ => false

/-- Is this event an emitted log line? -/
def Event.isLog : Event → Bool
  | .log _ => true
  | _ => false

/-- Is this event the underlying handler body starting? -/
def Event.isHandlerCall : Event → Bool
  | .handlerCall .. => true
  | _ => false

/-- The cleanup invocations of a trace. -/
def cleanupCalls (tr : List Event) : List Event := tr.filter Event.isCleanup

/-- The log lines of a trace. -/
def logLines (tr : List Event) : List Event := tr.filter Event.isLog

/-- The handler-body invocations of a trace. -/
def handlerCalls (tr : List Event) : List Event := tr.filter Event.isHandlerCall

/-- The original raw handler exposed by the facade's return value (the
wrapping callable's `_raw` attribute); the native wrap result exposes
none. -/
def WrapResult.getRaw : WrapResult → Option RawHandler
  | .callable w => some w.raw
  | .nativeValue _ => Option.none

/-- The time a yield asks the scheduler to wait before resuming: the
numeric delay of a `delay` yield, no time at all for a plain yield (the
host's next idle opportunity). -/
def yieldDelay : GenYield → ℚ
  | .delay d => d
  | .pause => 0

/-- One executed step of a cooperative run: the host time at which it ran,
the host turn on which it ran, and the markers the step recorded. -/
structure TimedStep where
  time : ℚ
  turn : Nat
  marks : List String
deriving DecidableEq

/-- Modelled from the spec (sections 4.3, 5, 6): the resumption loop of the
cooperative driver over the host scheduler.  Each remaining segment runs at
the current time and turn; its yield schedules the next step after the
yield's delay (`Scheduler.callLater`) or at the next idle opportunity with
no delay (`Scheduler.callSoon`), always on a strictly later host turn.
After the last segment the final segment runs. -/
def coopAux (t : ℚ) (n : Nat) (segs : List GenSeg) (fin : List String) :
    List TimedStep :=
  match segs with
  | [] => [⟨t, n, fin⟩]
  | s :: rest => ⟨t, n, s.marks⟩ :: coopAux (t + yieldDelay s.y) (n + 1) rest fin

/-- Modelled from the spec (sections 4.3, 5): the timed trace of one
cooperative run dispatched at host time `t0` on host turn `0`: the dispatch
call only schedules the first step, which therefore runs no earlier than
turn `1`. -/
def coopTrace (t0 : ℚ) (g : GenScript) : List TimedStep :=
  coopAux t0 1 g.segs g.finalMarks

/-- Modelled from the spec (sections 3, 4.6): the state of the future-like
primitive inside an async result. -/
inductive FutureState where
  | pending
  | resolved (v : Val)
  | rejected (msg : String)
deriving DecidableEq

/-- Modelled from the spec (section 4.6): the future-like async result: a
declared result kind name (`RESULT_TYPE`) and the underlying future. -/
structure AsyncResult where
  result_type : String
  future : FutureState
deriving DecidableEq

/-- A raised `RuntimeError`, carrying its message. -/
structure RuntimeError where
  message : String
deriving DecidableEq

/-- Modelled from the spec (sections 4.6, 8): the error every disabled
comparison raises, naming the declared result kind. -/
def AsyncResult.comparisonError (r : AsyncResult) : RuntimeError :=
  ⟨"Can't check " ++ r.result_type ++
    " result directly; use await or an on_result handler"⟩

/-- Modelled from the spec (section 4.6): equality comparison is disabled:
it raises unconditionally and never produces a boolean. -/
def AsyncResult.eq (r : AsyncResult) (_other : Val) : Except RuntimeError Bool :=
  .error r.comparisonError

/-- Modelled from the spec (section 4.6): inequality comparison is
disabled. -/
def AsyncResult.ne (r : AsyncResult) (_other : Val) : Except RuntimeError Bool :=
  .error r.comparisonError

/-- Modelled from the spec (section 4.6): less-than comparison is
disabled. -/
def AsyncResult.lt (r : AsyncResult) (_other : Val) : Except RuntimeError Bool :=
  .error r.comparisonError

/-- Modelled from the spec (section 4.6): less-or-equal comparison is
disabled. -/
def AsyncResult.le (r : AsyncResult) (_other : Val) : Except RuntimeError Bool :=
  .error r.comparisonError

/-- Modelled from the spec (section 4.6): greater-than comparison is
disabled. -/
def AsyncResult.gt (r : AsyncResult) (_other : Val) : Except RuntimeError Bool :=
  .error r.comparisonError

/-- Modelled from the spec (section 4.6): greater-or-equal comparison is
disabled. -/
def AsyncResult.ge (r : AsyncResult) (_other : Val) : Except RuntimeError Bool :=
  .error r.comparisonError

/-!  The winforms font backend, embedded from
`src/winforms/src/toga_winforms/fonts.py`. -/

/-- `points_to_pixels` from `fonts.py`. -/
def points_to_pixels (points dpi : ℚ) : ℚ :=
  points * 72 / dpi

/-- Result of `self._pfc.AddFontFile(font_path)` followed by
`self._pfc.Families[0]`: the loaded font family, or one of the three caught
exceptions (file not found, native load failure, empty `Families` array). -/
inductive LoadResult where
  | ok (family : String)
  | fileNotFoundException (msg : String)
  | externalException (msg : String)
  | indexError (msg : String)
deriving DecidableEq

/-- The Python error that escapes `Font.__init__` when the local variable
`font_family` is read without having been assigned. -/
inductive PyError where
  | unboundLocalError (name : String)
deriving DecidableEq

/-- A constructed `System.Drawing.Font`, holding the family, size and style
it was built from. -/
structure WinFont where
  family : String
  size : ℚ
  style : Nat
deriving DecidableEq

/-- The font interface object: the properties `Font.__init__` reads. -/
structure FontInterface where
  family : String
  weight : String
  style : String
  variant : String
  size : ℚ
deriving DecidableEq

/-- `Font.__init__` from `fonts.py`, on the cache-miss path and beyond.
Inputs abstract the collaborators: `cacheHit` is the `_FONT_CACHE` lookup,
`registeredPath` the `_REGISTERED_FONT_CACHE[font_key]` lookup (`none`
raises `KeyError`), `addFontFile` the private-font-collection load,
`winFontFamily`/`winFontStyle`/`winFontSize` the helpers from
`toga_winforms.libs.fonts`.  Returns the printed diagnostics and either the
constructed font or the escaping Python error.  The local `font_family` is
tracked as an `Option`: it is assigned only on the successful-load path and
on the `KeyError` fallback path, and reading it unassigned at the
`win_font_style` call raises `UnboundLocalError`. -/
def font_init (cacheHit : Option WinFont) (fontKey : String)
    (registeredPath : Option String) (addFontFile : String → LoadResult)
    (winFontFamily : String → String)
    (winFontStyle : String → String → String → Nat) (winFontSize : ℚ → ℚ)
    (iface : FontInterface) : List String × Except PyError WinFont :=
  match cacheHit with
  | some font => ([], .ok font)
  | Option.none =>
    let (prints, font_family) :=
      match registeredPath with
      | some path =>
        match addFontFile path with
        | .ok fam => ([], some fam)
        | .fileNotFoundException msg =>
          (["Registered font path " ++ reprStr path ++
              " could not be found: " ++ msg], Option.none)
        | .externalException msg =>
          (["Registered font path " ++ reprStr path ++
              " could not be loaded: " ++ msg], Option.none)
        | .indexError msg =>
          (["Registered font " ++ fontKey ++ " could not be loaded: " ++ msg],
            Option.none)
      | Option.none => ([], some (winFontFamily iface.family))
    match font_family with
    | some fam =>
      (prints, .ok ⟨fam, winFontSize iface.size,
        winFontStyle iface.weight iface.style fam⟩)
    | Option.none => (prints, .error (.unboundLocalError "font_family"))

/-- The size `WinForms.TextRenderer.MeasureText` reports. -/
structure TextSize where
  Width : ℚ
  Height : ℚ
deriving DecidableEq

/-- The backend font object: its constructed native font. -/
structure Font where
  native : WinFont

/-- `Font.measure` from `fonts.py`: measure the text with the native
renderer, then scale width and height by `points_to_pixels` with the given
dpi.  `measureText` abstracts `WinForms.TextRenderer.MeasureText`. -/
def Font.measure (f : Font) (measureText : String → WinFont → TextSize)
    (text : String) (dpi : ℚ) (_tight : Bool) : ℚ × ℚ :=
  let size := measureText text f.native
  (points_to_pixels size.Width dpi, points_to_pixels size.Height dpi)

/-- Fixture: a sync or async handler body that records nothing and returns
`42`, like the test handlers. -/
def body42 : Val → Args → Kwargs → Outcome := fun _ _ _ => Outcome.ok (Val.int 42)

/-- Fixture: a sync or async handler body that raises, like the test
handlers. -/
def bodyBoom : Val → Args → Kwargs → Outcome :=
  fun _ _ _ => Outcome.exn "Problem in handler"

/-- Fixture: the test generator's script: record the arguments, sleep 0.01,
record "slept", yield without a sleep, record "done", return 42. -/
def genScript42 : GenScript :=
  ⟨[⟨["args"], GenYield.delay (1 / 100)⟩, ⟨["slept"], GenYield.pause⟩],
    ["done"], Outcome.ok (Val.int 42)⟩

/-- Fixture: the erroring test generator's script: record the arguments,
sleep 0.01, then raise. -/
def genScriptBoom : GenScript :=
  ⟨[⟨["args"], GenYield.delay (1 / 100)⟩], [], Outcome.exn "Problem in handler"⟩

/-- Fixture: a generator body producing the returning test script. -/
def genBody42 : GenBody := fun _ _ _ => genScript42

/-- Fixture: a generator body producing the raising test script. -/
def genBodyBoom : GenBody := fun _ _ _ => genScriptBoom

/-- Fixture: a cleanup that raises, like the test cleanup mocks. -/
def cleanupBoom : Cleanup := fun _ _ => some "Problem in cleanup"

/-- Fixture: the receiver object of the tests. -/
def recvObj : Val := Val.obj 0

/-- Fixture: the positional arguments of the test invocations. -/
def argsFix : Args := [Val.str "arg1", Val.str "arg2"]

/-- Fixture: the keyword arguments of the test invocations. -/
def kwargsFix : Kwargs := [("kwarg1", Val.int 3), ("kwarg2", Val.int 4)]

/-- Fixture: a font loader whose registered file is missing. -/
def loadMissing : String → LoadResult :=
  fun _ => LoadResult.fileNotFoundException "missing"

/-- Fixture: a family fallback helper returning the requested family. -/
def familyId : String → String := fun fam => fam

/-- Fixture: a native style helper returning a constant style code. -/
def styleZero : String → String → String → Nat := fun _ _ _ => 0

/-- Fixture: a size helper returning the requested size. -/
def sizeId : ℚ → ℚ := fun s => s

/-- Fixture: a font interface requesting the system family. -/
def ifaceFix : FontInterface := ⟨"system", "normal", "normal", "normal", 12⟩

/-- Fixture: a native measurer reporting a constant 100 by 20 size. -/
def measure100x20 : String → WinFont → TextSize := fun _ _ => ⟨100, 20⟩

/-- Fixture: a backend font over a plain native font. -/
def fontFix : Font := ⟨⟨"Arial", 12, 0⟩⟩

theorem filter_marks_isLog (l : List String) :
    (l.map Event.mark).filter Event.isLog = [] := by
  induction l with
  | nil => rfl
  | cons a l ih => simp [Event.isLog, ih]

theorem filter_marks_isCleanup (l : List String) :
    (l.map Event.mark).filter Event.isCleanup = [] := by
  induction l with
  | nil => rfl
  | cons a l ih => simp [Event.isCleanup, ih]

theorem filter_marks_isHandlerCall (l : List String) :
    (l.map Event.mark).filter Event.isHandlerCall = [] := by
  induction l with
  | nil => rfl
  | cons a l ih => simp [Event.isHandlerCall, ih]

theorem handlerCalls_cleanupEvents (cleanupLog : String → String)
    (receiver r : Val) (cl : Option Cleanup) :
    (cleanupEvents cleanupLog receiver r cl).filter Event.isHandlerCall = [] := by
  cases cl with
  | none => rfl
  | some c =>
    cases h : c receiver r with
    | none => simp [cleanupEvents, h, Event.isHandlerCall]
    | some cmsg => simp [cleanupEvents, h, Event.isHandlerCall]

theorem cleanupCalls_cleanupEvents (cleanupLog : String → String)
    (receiver r : Val) (cl : Cleanup) :
    (cleanupEvents cleanupLog receiver r (some cl)).filter Event.isCleanup
      = [Event.cleanupCall receiver r] := by
  cases h : cl receiver r with
  | none => simp [cleanupEvents, h, Event.isCleanup]
  | some cmsg => simp [cleanupEvents, h, Event.isCleanup, Event.isLog]

theorem logLines_cleanupEvents_exn (cleanupLog : String → String)
    (receiver r : Val) (cl : Cleanup) (cmsg : String) (h : cl receiver r = some cmsg) :
    (cleanupEvents cleanupLog receiver r (some cl)).filter Event.isLog
      = [Event.log (cleanupLog cmsg)] := by
  simp [cleanupEvents, h, Event.isLog, Event.isCleanup]

/-- Claim C3: invoking the wrapped form of a plain synchronous handler with
any first positional argument, further positional arguments and keyword
arguments starts the underlying handler body exactly once, with the
receiver bound at wrap time in place of the first positional argument of
the invocation, the remaining positional arguments, and exactly the same
keyword arguments. -/
theorem sync_handler_args (receiver widget : Val) (body : SyncBody)
    (cleanup : Option Cleanup) (args : Args) (kwargs : Kwargs) :
    handlerCalls (invokeWrapped receiver (RawHandler.sync body) cleanup widget
        args kwargs).1
      = [Event.handlerCall receiver args kwargs] := by
  cases h : body receiver args kwargs with
  | ok r =>
    simp [invokeWrapped, wrapped_handler, WrappedCallable.call, invokeSync, h,
      handlerCalls, Event.isHandlerCall, List.filter,
      handlerCalls_cleanupEvents handlerCleanupErrorLog receiver r cleanup]
  | exn msg =>
    simp [invokeWrapped, wrapped_handler, WrappedCallable.call, invokeSync, h,
      handlerCalls, Event.isHandlerCall]

/-- Claim C4: wrapping an absent handler still yields a valid callable:
invoking it with any widget, positional and keyword arguments produces no
events at all and returns normally. -/
theorem none_handler_noop (receiver widget : Val) (cleanup : Option Cleanup)
    (args : Args) (kwargs : Kwargs) :
    invokeWrapped receiver RawHandler.none cleanup widget args kwargs
      = ([], Except.ok ()) := rfl

/-- Claim C7: for a raw handler marked as a native callback, the facade
returns the underlying native callback value itself — the value passed into
`NativeHandler` — rather than a wrapping callable. -/
theorem native_handler_passthrough (receiver : Val) (cleanup : Option Cleanup)
    (nh : NativeHandler) :
    wrapped_handler receiver (RawHandler.native nh) cleanup
      = WrapResult.nativeValue nh.native := rfl

/-- Claim C8: for an absent, synchronous, generator or asynchronous raw
handler, the callable the facade returns exposes the original unclassified
raw handler value for identity and introspection. -/
theorem raw_handler_exposed (receiver : Val) (cleanup : Option Cleanup) :
    (wrapped_handler receiver RawHandler.none cleanup).getRaw
        = some RawHandler.none
  ∧ (∀ body : SyncBody,
      (wrapped_handler receiver (RawHandler.sync body) cleanup).getRaw
        = some (RawHandler.sync body))
  ∧ (∀ body : GenBody,
      (wrapped_handler receiver (RawHandler.gen body) cleanup).getRaw
        = some (RawHandler.gen body))
  ∧ (∀ body : AsyncBody,
      (wrapped_handler receiver (RawHandler.async body) cleanup).getRaw
        = some (RawHandler.async body)) :=
  ⟨rfl, fun _ => rfl, fun _ => rfl, fun _ => rfl⟩

/-- Claim C1: for each handler strategy that can produce a return value
(sync, cooperative-generator, async), when the handler completes normally
with return value `r` and a cleanup callable was provided at wrap time,
cleanup runs exactly once with `(receiver, r)`; when cleanup itself raises,
exactly one log line with that strategy's kind-specific cleanup error line
is emitted; and the dispatch call still returns normally. -/
theorem cleanup_contract (receiver widget r : Val) (args : Args)
    (kwargs : Kwargs) (cl : Cleanup) :
    (∀ body : SyncBody, body receiver args kwargs = Outcome.ok r →
      cleanupCalls (invokeWrapped receiver (RawHandler.sync body) (some cl)
          widget args kwargs).1 = [Event.cleanupCall receiver r]
      ∧ (∀ cmsg, cl receiver r = some cmsg →
          logLines (invokeWrapped receiver (RawHandler.sync body) (some cl)
              widget args kwargs).1
            = [Event.log (handlerCleanupErrorLog cmsg)])
      ∧ (invokeWrapped receiver (RawHandler.sync body) (some cl) widget args
          kwargs).2 = Except.ok ())
  ∧ (∀ body : GenBody, (body receiver args kwargs).outcome = Outcome.ok r →
      cleanupCalls (invokeWrapped receiver (RawHandler.gen body) (some cl)
          widget args kwargs).1 = [Event.cleanupCall receiver r]
      ∧ (∀ cmsg, cl receiver r = some cmsg →
          logLines (invokeWrapped receiver (RawHandler.gen body) (some cl)
              widget args kwargs).1
            = [Event.log (longRunningCleanupErrorLog cmsg)])
      ∧ (invokeWrapped receiver (RawHandler.gen body) (some cl) widget args
          kwargs).2 = Except.ok ())
  ∧ (∀ body : AsyncBody, body receiver args kwargs = Outcome.ok r →
      cleanupCalls (invokeWrapped receiver (RawHandler.async body) (some cl)
          widget args kwargs).1 = [Event.cleanupCall receiver r]
      ∧ (∀ cmsg, cl receiver r = some cmsg →
          logLines (invokeWrapped receiver (RawHandler.async body) (some cl)
              widget args kwargs).1
            = [Event.log (asyncCleanupErrorLog cmsg)])
      ∧ (invokeWrapped receiver (RawHandler.async body) (some cl) widget args
          kwargs).2 = Except.ok ()) := by
  refine ⟨fun body h => ⟨?_, fun cmsg hc => ?_, ?_⟩,
    fun body h => ⟨?_, fun cmsg hc => ?_, ?_⟩,
    fun body h => ⟨?_, fun cmsg hc => ?_, ?_⟩⟩
  · simp [invokeWrapped, wrapped_handler, WrappedCallable.call, invokeSync, h,
      cleanupCalls, List.filter_cons, Event.isCleanup,
      cleanupCalls_cleanupEvents handlerCleanupErrorLog receiver r cl]
  · simp [invokeWrapped, wrapped_handler, WrappedCallable.call, invokeSync, h,
      logLines, List.filter_cons, Event.isLog,
      logLines_cleanupEvents_exn handlerCleanupErrorLog receiver r cl cmsg hc]
  · simp [invokeWrapped, wrapped_handler, WrappedCallable.call, invokeSync, h]
  · simp [invokeWrapped, wrapped_handler, WrappedCallable.call, invokeGen,
      runGenTask, h, cleanupCalls, List.filter_cons, List.filter_append,
      Event.isCleanup, filter_marks_isCleanup,
      cleanupCalls_cleanupEvents longRunningCleanupErrorLog receiver r cl]
  · simp [invokeWrapped, wrapped_handler, WrappedCallable.call, invokeGen,
      runGenTask, h, logLines, List.filter_cons, List.filter_append,
      Event.isLog, filter_marks_isLog,
      logLines_cleanupEvents_exn longRunningCleanupErrorLog receiver r cl cmsg hc]
  · simp [invokeWrapped, wrapped_handler, WrappedCallable.call, invokeGen]
  · simp [invokeWrapped, wrapped_handler, WrappedCallable.call, invokeAsync,
      runAsyncTask, h, cleanupCalls, List.filter_cons, Event.isCleanup,
      cleanupCalls_cleanupEvents asyncCleanupErrorLog receiver r cl]
  · simp [invokeWrapped, wrapped_handler, WrappedCallable.call, invokeAsync,
      runAsyncTask, h, logLines, List.filter_cons, Event.isLog,
      logLines_cleanupEvents_exn asyncCleanupErrorLog receiver r cl cmsg hc]
  · simp [invokeWrapped, wrapped_handler, WrappedCallable.call, invokeAsync]

/-- Witness for claim C1: at the test fixture (sync handler returning 42,
cleanup raising "Problem in cleanup") the hypotheses hold and the cleanup
contract's conclusions evaluate as stated. -/
theorem cleanup_contract_witness :
    body42 recvObj argsFix kwargsFix = Outcome.ok (Val.int 42)
  ∧ cleanupBoom recvObj (Val.int 42) = some "Problem in cleanup"
  ∧ cleanupCalls (invokeWrapped recvObj (RawHandler.sync body42)
        (some cleanupBoom) (Val.str "dummy") argsFix kwargsFix).1
      = [Event.cleanupCall recvObj (Val.int 42)]
  ∧ logLines (invokeWrapped recvObj (RawHandler.sync body42)
        (some cleanupBoom) (Val.str "dummy") argsFix kwargsFix).1
      = [Event.log (handlerCleanupErrorLog "Problem in cleanup")]
  ∧ (invokeWrapped recvObj (RawHandler.sync body42) (some cleanupBoom)
        (Val.str "dummy") argsFix kwargsFix).2 = Except.ok () := by
  have h := (cleanup_contract recvObj (Val.str "dummy") (Val.int 42) argsFix
    kwargsFix cleanupBoom).1 body42 rfl
  exact ⟨rfl, rfl, h.1, h.2.1 "Problem in cleanup" rfl, h.2.2⟩

/-- Claim C2: an exception raised inside a handler body is caught at the
core's boundary and never propagates: the dispatch call returns normally,
exactly one log line with the originating strategy's distinct error line
(message followed by the traceback) is emitted, and cleanup is not invoked
on this path. -/
theorem handler_error_isolated (receiver widget : Val) (args : Args)
    (kwargs : Kwargs) (cleanup : Option Cleanup) (msg : String) :
    (∀ body : SyncBody, body receiver args kwargs = Outcome.exn msg →
      cleanupCalls (invokeWrapped receiver (RawHandler.sync body) cleanup
          widget args kwargs).1 = []
      ∧ logLines (invokeWrapped receiver (RawHandler.sync body) cleanup
          widget args kwargs).1 = [Event.log (handlerErrorLog msg)]
      ∧ (invokeWrapped receiver (RawHandler.sync body) cleanup widget args
          kwargs).2 = Except.ok ())
  ∧ (∀ body : GenBody, (body receiver args kwargs).outcome = Outcome.exn msg →
      cleanupCalls (invokeWrapped receiver (RawHandler.gen body) cleanup
          widget args kwargs).1 = []
      ∧ logLines (invokeWrapped receiver (RawHandler.gen body) cleanup
          widget args kwargs).1 = [Event.log (longRunningErrorLog msg)]
      ∧ (invokeWrapped receiver (RawHandler.gen body) cleanup widget args
          kwargs).2 = Except.ok ())
  ∧ (∀ body : AsyncBody, body receiver args kwargs = Outcome.exn msg →
      cleanupCalls (invokeWrapped receiver (RawHandler.async body) cleanup
          widget args kwargs).1 = []
      ∧ logLines (invokeWrapped receiver (RawHandler.async body) cleanup
          widget args kwargs).1 = [Event.log (asyncErrorLog msg)]
      ∧ (invokeWrapped receiver (RawHandler.async body) cleanup widget args
          kwargs).2 = Except.ok ()) := by
  refine ⟨fun body h => ⟨?_, ?_, ?_⟩, fun body h => ⟨?_, ?_, ?_⟩,
    fun body h => ⟨?_, ?_, ?_⟩⟩
  · simp [invokeWrapped, wrapped_handler, WrappedCallable.call, invokeSync, h,
      cleanupCalls, List.filter_cons, Event.isCleanup]
  · simp [invokeWrapped, wrapped_handler, WrappedCallable.call, invokeSync, h,
      logLines, List.filter_cons, Event.isLog]
  · simp [invokeWrapped, wrapped_handler, WrappedCallable.call, invokeSync, h]
  · simp [invokeWrapped, wrapped_handler, WrappedCallable.call, invokeGen,
      runGenTask, h, cleanupCalls, List.filter_cons, List.filter_append,
      Event.isCleanup, filter_marks_isCleanup]
  · simp [invokeWrapped, wrapped_handler, WrappedCallable.call, invokeGen,
      runGenTask, h, logLines, List.filter_cons, List.filter_append,
      Event.isLog, filter_marks_isLog]
  · simp [invokeWrapped, wrapped_handler, WrappedCallable.call, invokeGen]
  · simp [invokeWrapped, wrapped_handler, WrappedCallable.call, invokeAsync,
      runAsyncTask, h, cleanupCalls, List.filter_cons, Event.isCleanup]
  · simp [invokeWrapped, wrapped_handler, WrappedCallable.call, invokeAsync,
      runAsyncTask, h, logLines, List.filter_cons, Event.isLog]
  · simp [invokeWrapped, wrapped_handler, WrappedCallable.call, invokeAsync]

/-- Witness for claim C2: at the test fixture (generator that sleeps then
raises "Problem in handler") the hypothesis holds and the error-isolation
conclusions evaluate as stated. -/
theorem handler_error_isolated_witness :
    (genBodyBoom recvObj argsFix kwargsFix).outcome
        = Outcome.exn "Problem in handler"
  ∧ cleanupCalls (invokeWrapped recvObj (RawHandler.gen genBodyBoom)
        Option.none (Val.str "dummy") argsFix kwargsFix).1 = []
  ∧ logLines (invokeWrapped recvObj (RawHandler.gen genBodyBoom)
        Option.none (Val.str "dummy") argsFix kwargsFix).1
      = [Event.log (longRunningErrorLog "Problem in handler")]
  ∧ (invokeWrapped recvObj (RawHandler.gen genBodyBoom) Option.none
        (Val.str "dummy") argsFix kwargsFix).2 = Except.ok () := by
  have h := (handler_error_isolated recvObj (Val.str "dummy") argsFix
    kwargsFix Option.none "Problem in handler").2.1 genBodyBoom rfl
  exact ⟨rfl, h.1, h.2.1, h.2.2⟩

/-- Claim C5: against a pending async result of declared kind "Test", each
of the six comparison operations raises a RuntimeError with the message
naming the kind and instructing await or an on_result handler, and no
comparison ever returns a boolean. -/
theorem async_result_comparisons_raise (v : Val) :
    (AsyncResult.mk "Test" FutureState.pending).eq v
        = Except.error
            ⟨"Can't check Test result directly; use await or an on_result handler"⟩
  ∧ (AsyncResult.mk "Test" FutureState.pending).ne v
        = Except.error
            ⟨"Can't check Test result directly; use await or an on_result handler"⟩
  ∧ (AsyncResult.mk "Test" FutureState.pending).lt v
        = Except.error
            ⟨"Can't check Test result directly; use await or an on_result handler"⟩
  ∧ (AsyncResult.mk "Test" FutureState.pending).le v
        = Except.error
            ⟨"Can't check Test result directly; use await or an on_result handler"⟩
  ∧ (AsyncResult.mk "Test" FutureState.pending).gt v
        = Except.error
            ⟨"Can't check Test result directly; use await or an on_result handler"⟩
  ∧ (AsyncResult.mk "Test" FutureState.pending).ge v
        = Except.error
            ⟨"Can't check Test result directly; use await or an on_result handler"⟩
  ∧ (∀ b : Bool,
      (AsyncResult.mk "Test" FutureState.pending).eq v ≠ Except.ok b
      ∧ (AsyncResult.mk "Test" FutureState.pending).ne v ≠ Except.ok b
      ∧ (AsyncResult.mk "Test" FutureState.pending).lt v ≠ Except.ok b
      ∧ (AsyncResult.mk "Test" FutureState.pending).le v ≠ Except.ok b
      ∧ (AsyncResult.mk "Test" FutureState.pending).gt v ≠ Except.ok b
      ∧ (AsyncResult.mk "Test" FutureState.pending).ge v ≠ Except.ok b) := by
  refine ⟨rfl, rfl, rfl, rfl, rfl, rfl, fun b => ⟨?_, ?_, ?_, ?_, ?_, ?_⟩⟩ <;>
    intro h <;>
    simp [AsyncResult.eq, AsyncResult.ne, AsyncResult.lt, AsyncResult.le,
      AsyncResult.gt, AsyncResult.ge] at h

/-- Witness for claim C5: at the value 42 the less-than comparison raises
the documented error and the equality comparison does not produce the
boolean true. -/
theorem async_result_comparisons_raise_witness :
    (AsyncResult.mk "Test" FutureState.pending).lt (Val.int 42)
        = Except.error
            ⟨"Can't check Test result directly; use await or an on_result handler"⟩
  ∧ (AsyncResult.mk "Test" FutureState.pending).eq (Val.int 42)
        ≠ Except.ok true := by
  have h := async_result_comparisons_raise (Val.int 42)
  exact ⟨h.2.2.1, (h.2.2.2.2.2.2 true).1⟩

theorem coopAux_length (t : ℚ) (n : Nat) (segs : List GenSeg)
    (fin : List String) : (coopAux t n segs fin).length = segs.length + 1 := by
  induction segs generalizing t n with
  | nil => rfl
  | cons s rest ih => simp [coopAux, ih]

theorem coopAux_marks (t : ℚ) (n : Nat) (segs : List GenSeg)
    (fin : List String) :
    (coopAux t n segs fin).map TimedStep.marks
      = segs.map GenSeg.marks ++ [fin] := by
  induction segs generalizing t n with
  | nil => rfl
  | cons s rest ih => simp [coopAux, ih]

theorem coopAux_turn_ge (t : ℚ) (n : Nat) (segs : List GenSeg)
    (fin : List String) : ∀ s ∈ coopAux t n segs fin, n ≤ s.turn := by
  induction segs generalizing t n with
  | nil =>
    intro s hs
    simp only [coopAux, List.mem_singleton] at hs
    simp [hs]
  | cons sg rest ih =>
    intro s hs
    simp only [coopAux, List.mem_cons] at hs
    rcases hs with h | h
    · simp [h]
    · exact Nat.le_of_succ_le (ih (t + yieldDelay sg.y) (n + 1) s h)

theorem coopAux_head (t : ℚ) (n : Nat) (segs : List GenSeg)
    (fin : List String) (h : 0 < (coopAux t n segs fin).length) :
    ((coopAux t n segs fin).get ⟨0, h⟩).time = t
  ∧ ((coopAux t n segs fin).get ⟨0, h⟩).turn = n := by
  cases segs with
  | nil => exact ⟨rfl, rfl⟩
  | cons s rest => exact ⟨rfl, rfl⟩

theorem coopAux_step (segs : List GenSeg) (fin : List String) :
    ∀ (t : ℚ) (n i : Nat) (hi : i < segs.length)
      (h1 : i + 1 < (coopAux t n segs fin).length)
      (h0 : i < (coopAux t n segs fin).length),
      ((coopAux t n segs fin).get ⟨i + 1, h1⟩).time
          = ((coopAux t n segs fin).get ⟨i, h0⟩).time
            + yieldDelay (segs.get ⟨i, hi⟩).y
      ∧ ((coopAux t n segs fin).get ⟨i + 1, h1⟩).turn
          = ((coopAux t n segs fin).get ⟨i, h0⟩).turn + 1 := by
  induction segs with
  | nil => intro t n i hi _ _; exact absurd hi (Nat.not_lt_zero i)
  | cons sg rest ih =>
    intro t n i hi h1 h0
    cases i with
    | zero =>
      have hlen : 0 < (coopAux (t + yieldDelay sg.y) (n + 1) rest fin).length := by
        simp [coopAux_length]
      have hh := coopAux_head (t + yieldDelay sg.y) (n + 1) rest fin hlen
      exact ⟨hh.1, hh.2⟩
    | succ j =>
      exact ih (t + yieldDelay sg.y) (n + 1) j (Nat.lt_of_succ_lt_succ hi)
        (Nat.lt_of_succ_lt_succ h1) (Nat.lt_of_succ_lt_succ h0)

/-- Claim C6: for every cooperative run dispatched at host time `t0` on
host turn `0`: a step following a yield resumes exactly after the yield's
delay (so never before the delay has elapsed) and on the strictly next host
turn; no step runs on the dispatch turn itself (never synchronously within
the original call); and the steps execute their recorded markers in the
order yielded. -/
theorem cooperative_scheduling (t0 : ℚ) (g : GenScript) :
    (coopTrace t0 g).length = g.segs.length + 1
  ∧ (∀ (i : Nat) (hi : i < g.segs.length)
        (h1 : i + 1 < (coopTrace t0 g).length)
        (h0 : i < (coopTrace t0 g).length),
      ((coopTrace t0 g).get ⟨i + 1, h1⟩).time
          = ((coopTrace t0 g).get ⟨i, h0⟩).time
            + yieldDelay ((g.segs.get ⟨i, hi⟩).y)
      ∧ ((coopTrace t0 g).get ⟨i + 1, h1⟩).turn
          = ((coopTrace t0 g).get ⟨i, h0⟩).turn + 1)
  ∧ (∀ s ∈ coopTrace t0 g, 1 ≤ s.turn)
  ∧ (coopTrace t0 g).map TimedStep.marks
      = g.segs.map GenSeg.marks ++ [g.finalMarks] :=
  ⟨coopAux_length t0 1 g.segs g.finalMarks,
    fun i hi h1 h0 => coopAux_step g.segs g.finalMarks t0 1 i hi h1 h0,
    coopAux_turn_ge t0 1 g.segs g.finalMarks,
    coopAux_marks t0 1 g.segs g.finalMarks⟩

/-- Witness for claim C6: for the test generator (sleep 0.01, record
"slept", plain yield, record "done") dispatched at time 0, the second step
runs exactly 0.01 after the first and one turn later, and the markers fire
in yield order, "slept" strictly before "done". -/
theorem cooperative_scheduling_witness :
    0 < genScript42.segs.length
  ∧ (coopTrace 0 genScript42).length = genScript42.segs.length + 1
  ∧ (((coopTrace 0 genScript42).get ⟨1, by decide⟩).time
      = ((coopTrace 0 genScript42).get ⟨0, by decide⟩).time
        + yieldDelay ((genScript42.segs.get ⟨0, by decide⟩).y)
    ∧ ((coopTrace 0 genScript42).get ⟨1, by decide⟩).turn
      = ((coopTrace 0 genScript42).get ⟨0, by decide⟩).turn + 1)
  ∧ (coopTrace 0 genScript42).map TimedStep.marks
      = [["args"], ["slept"], ["done"]] := by
  have h := cooperative_scheduling 0 genScript42
  refine ⟨by decide, h.1, h.2.1 0 (by decide) (by decide) (by decide), ?_⟩
  simpa [genScript42] using h.2.2.2

/-- Claim C9: when the font interface has a registered-font key but loading
the registered file fails (file not found, native load failure, or empty
family array), `Font.__init__` prints one diagnostic line and then raises
`UnboundLocalError` at the `win_font_style` call, because the local
`font_family` is assigned only on the successful-load path or on the
no-registration fallback path; construction does not fall back to a default
family. -/
theorem registered_font_load_failure (fontKey path msg : String)
    (addFontFile : String → LoadResult) (wff : String → String)
    (wfs : String → String → String → Nat) (wsz : ℚ → ℚ)
    (iface : FontInterface)
    (hload : addFontFile path = LoadResult.fileNotFoundException msg
      ∨ addFontFile path = LoadResult.externalException msg
      ∨ addFontFile path = LoadResult.indexError msg) :
    (font_init Option.none fontKey (some path) addFontFile wff wfs wsz
        iface).2 = Except.error (PyError.unboundLocalError "font_family")
  ∧ (font_init Option.none fontKey (some path) addFontFile wff wfs wsz
        iface).1.length = 1 := by
  rcases hload with h | h | h <;> simp [font_init, h]

/-- Witness for claim C9: with a registered path whose file is missing, the
hypothesis holds and construction prints one diagnostic and ends in the
`UnboundLocalError`. -/
theorem registered_font_load_failure_witness :
    loadMissing "fonts/custom.ttf" = LoadResult.fileNotFoundException "missing"
  ∧ (font_init Option.none "key" (some "fonts/custom.ttf") loadMissing
        familyId styleZero sizeId ifaceFix).2
      = Except.error (PyError.unboundLocalError "font_family")
  ∧ (font_init Option.none "key" (some "fonts/custom.ttf") loadMissing
        familyId styleZero sizeId ifaceFix).1.length = 1 := by
  have h := registered_font_load_failure "key" "fonts/custom.ttf" "missing"
    loadMissing familyId styleZero sizeId ifaceFix (Or.inl rfl)
  exact ⟨rfl, h.1, h.2⟩

/-- Claim C10: for nonzero dpi, `points_to_pixels p dpi` is exactly
`p * 72 / dpi`, and `Font.measure` applies this same `72 / dpi` factor to
both the width and the height of the natively measured size before
returning them as a pair. -/
theorem points_to_pixels_measure (p dpi : ℚ) (_hd : dpi ≠ 0)
    (mt : String → WinFont → TextSize) (f : Font) (text : String)
    (tight : Bool) :
    points_to_pixels p dpi = p * 72 / dpi
  ∧ f.measure mt text dpi tight
      = ((mt text f.native).Width * 72 / dpi,
         (mt text f.native).Height * 72 / dpi) :=
  ⟨rfl, rfl⟩

/-- Witness for claim C10: at dpi 96 and a 100 by 20 measured size, the
nonzero-dpi hypothesis holds and both scalings evaluate as stated. -/
theorem points_to_pixels_measure_witness :
    (96 : ℚ) ≠ 0
  ∧ points_to_pixels 100 96 = 100 * 72 / 96
  ∧ Font.measure fontFix measure100x20 "Hello world" 96 false
      = ((measure100x20 "Hello world" fontFix.native).Width * 72 / 96,
         (measure100x20 "Hello world" fontFix.native).Height * 72 / 96) := by
  have h := points_to_pixels_measure 100 96 (by norm_num) measure100x20
    fontFix "Hello world" false
  exact ⟨by norm_num, h.1, h.2⟩
